import Mathlib

/-!
Verification of the Bybit market-data collector (src/bybit.py).

The module is a thin polling client: four endpoint functions build URLs under a
fixed API base and delegate to a response-envelope handler, a collector loop
repeatedly calls one endpoint and appends one JSON record per call to a file,
and a driver derives an output directory and starts one thread per selected
data type.

Embedding conventions:
- Python dict/JSON values are modelled by `PyVal`; a parsed response body is an
  `Envelope` (the documented fields of every Bybit response).
- The network is an oracle `http : String → Envelope` mapping a request URL to
  the parsed body of its response; `make_request` applies the envelope check of
  the source to that parsed body.
- `time.time()` readings are an oracle `clock : Nat → Rat`, consumed in call
  order (floats are modelled as rationals).
- The while loop of `store_info` is given fuel; a run whose fuel is exhausted
  mid-loop is marked `complete = false` and is distinguished from a run that
  ended by the time check or by an uncaught exception.
- Python exceptions relevant here (`KeyError` on a missing `FN_MAPPING` key,
  `TypeError` on an unexpected keyword argument) are modelled by `PyError`;
  keyword-argument checking uses the parameter-name lists of the source
  function signatures.
- A file is the list of JSON records written to it, one per line; `json.dumps`
  is kept abstract by identifying a written line with the dict value passed to
  it (serialization is injective, and the claims are about the key structure of
  each line).
-/

def API_LINK : String := "https://api-testnet.bybit.com/v2/public/"

def PAIR : String := "BTCUSD"

def LIMIT : Int := 500

def INTERVAL : String := "1"

def SINCE : String := "1581231260"

def BASE_SAVE_DIR : String := "../../datasets/"

/-- A Python/JSON value. -/
inductive PyVal where
  | null : PyVal
  | bool : Bool → PyVal
  | num : Rat → PyVal
  | str : String → PyVal
  | list : List PyVal → PyVal
  | obj : List (String × PyVal) → PyVal

/-- The parsed body of a Bybit response: the documented envelope fields. -/
structure Envelope where
  ret_code : Int
  ret_msg : String
  ext_code : String
  ext_info : String
  result : PyVal
  time_now : String

/-- The keys of a JSON object value (in order); other values have no keys. -/
def keysOf : PyVal → List String
  | PyVal.obj l => l.map Prod.fst
  | _ => []

/-- Source `make_request(url)`: GET the url, parse the body, return `result`
on `ret_code == 0`, otherwise return `ret_msg`. The GET-and-parse step is the
oracle `http`. -/
def make_request (http : String → Envelope) (url : String) : PyVal :=
  let resp := http url
  if resp.ret_code = 0 then resp.result else PyVal.str resp.ret_msg

/-- URL built by source `get_order_book(pair)`. -/
def get_order_book_url (pair : String) : String :=
  API_LINK ++ ("orderBook/L2?symbol=") ++ pair

/-- Source `get_order_book`: build the URL and delegate to `make_request`. -/
def get_order_book (http : String → Envelope) (pair : String) : PyVal :=
  make_request http (get_order_book_url pair)

/-- URL built by source `get_trades(pair, limit)`. -/
def get_trades_url (pair : String) (limit : Int) : String :=
  API_LINK ++ ("trading-records?symbol=") ++ pair ++ ("&limit=") ++ toString limit

/-- Source `get_trades`: build the URL and delegate to `make_request`. -/
def get_trades (http : String → Envelope) (pair : String) (limit : Int) : PyVal :=
  make_request http (get_trades_url pair limit)

/-- URL built by source `get_candles(pair, interval, since)`. -/
def get_candles_url (pair interval since : String) : String :=
  API_LINK ++ ("kline/list?symbol=") ++ pair ++ ("&interval=") ++ interval ++ ("&from=") ++ since

/-- Source `get_candles`: build the URL and delegate to `make_request`. -/
def get_candles (http : String → Envelope) (pair interval since : String) : PyVal :=
  make_request http (get_candles_url pair interval since)

/-- URL built by source `get_ticker(pair, interval, since)`. -/
def get_ticker_url (pair interval since : String) : String :=
  API_LINK ++ ("kline/list?symbol=") ++ pair ++ ("&interval=") ++ interval ++ ("&from=") ++ since ++ ("&limit=1")

/-- Source `get_ticker`: build the URL and delegate to `make_request`. -/
def get_ticker (http : String → Envelope) (pair interval since : String) : PyVal :=
  make_request http (get_ticker_url pair interval since)

/-- Split a character list at every occurrence of `c` (Python `str.split`). -/
def splitListOn (c : Char) : List Char → List (List Char)
  | [] => [[]]
  | a :: rest =>
    let r := splitListOn c rest
    if a = c then [] :: r
    else
      match r with
      | h :: t => (a :: h) :: t
      | [] => [[a]]

/-- The part of a URL before its `?` separator. -/
def urlPath (u : String) : String :=
  String.mk ((splitListOn '?' u.data).headD [])

/-- The query parameters of a URL: the part after `?`, split at `&`, each
piece split at `=` into a key/value pair. -/
def queryParams (u : String) : List (String × String) :=
  match splitListOn '?' u.data with
  | [_, q] =>
    (splitListOn '&' q).map (fun p =>
      match splitListOn '=' p with
      | [k, v] => (String.mk k, String.mk v)
      | _ => (String.mk p, ("")))
  | _ => []

/-- A Python exception relevant to this module: subscripting a dict with a
missing key, or calling a function with an unexpected keyword argument. -/
inductive PyError where
  | keyError : String → PyError
  | typeError : String → PyError

/-- Source `FN_MAPPING`: data-type name to endpoint function, here represented
by the keyword-parameter names of each mapped function's signature. The
`candles` and `spread` entries are commented out in the source. -/
def FN_MAPPING : List (String × List String) :=
  [(("order_book"), [("pair"), ("debug")]),
   (("trades"), [("pair"), ("limit"), ("debug")]),
   (("ticker"), [("pair"), ("interval"), ("since"), ("debug")])]

/-- The value an `FN_MAPPING` endpoint returns when actually invoked: each
builds its URL (with the module-level defaults for its optional parameters)
and delegates to `make_request`. Unreachable in `store_info` as shipped,
because the keyword check of `callEndpoint` fails first. -/
def run_endpoint (http : String → Envelope) (info_type pair : String) : PyVal :=
  if info_type = ("order_book") then get_order_book http pair
  else if info_type = ("trades") then get_trades http pair LIMIT
  else get_ticker http pair INTERVAL SINCE

/-- Source line 108, `FN_MAPPING[info_type](product_id=pair, **kwargs)`:
subscript the mapping (KeyError when the key is absent), then call the mapped
function with keyword arguments `product_id` plus the names in `kwargs`
(TypeError on the first keyword its signature does not accept, since none of
the mapped functions takes a var-keyword parameter). -/
def callEndpoint (http : String → Envelope) (info_type pair : String)
    (kwargs : List String) : Except PyError PyVal :=
  match FN_MAPPING.lookup info_type with
  | Option.none => Except.error (PyError.keyError info_type)
  | Option.some params =>
    match (("product_id") :: kwargs).find? (fun k => ! params.contains k) with
    | Option.some k => Except.error (PyError.typeError k)
    | Option.none => Except.ok (run_endpoint http info_type pair)

/-- The dict written per line by `store_info`:
`{'ts': time.time(), 'response': <endpoint value>}`. -/
def recordVal (ts : Rat) (v : PyVal) : PyVal :=
  PyVal.obj [(("ts"), PyVal.num ts), (("response"), v)]

/-- Outcome of one collector-loop run: the lines written to the file, the
uncaught exception if one ended the run, and whether the model had enough fuel
to finish the run (`complete = false` only on fuel exhaustion). -/
structure LoopResult where
  lines : List PyVal
  err : Option PyError
  complete : Bool

/-- The while loop of `store_info` (source lines 104-110). `clock` readings
are consumed at index `k`: the loop condition reads `clock k`, the `ts` field
of a written record reads `clock (k+1)`. `call i` is the outcome of the
iteration-`i` endpoint call; an exception ends the run with the lines written
so far. -/
def collectLoopAux (clock : Nat → Rat) (collection_time : Rat)
    (call : Nat → Except PyError PyVal) (start : Rat) :
    Nat → Nat → Nat → List PyVal → LoopResult
  | 0, _, _, acc => ⟨acc.reverse, Option.none, false⟩
  | Nat.succ fuel, k, i, acc =>
    if clock k - start < collection_time then
      match call i with
      | Except.error e => ⟨acc.reverse, Option.some e, true⟩
      | Except.ok v =>
        collectLoopAux clock collection_time call start fuel (k + 2) (i + 1)
          (recordVal (clock (k + 1)) v :: acc)
    else ⟨acc.reverse, Option.none, true⟩

/-- The collector loop from `start = time.time()` on: the first reading is the
start time, the next is the first loop-condition check. -/
def collectLoop (clock : Nat → Rat) (collection_time : Rat)
    (call : Nat → Except PyError PyVal) (fuel : Nat) : LoopResult :=
  collectLoopAux clock collection_time call (clock 0) fuel 1 0 []

/-- Source `store_info(save_dir, pair, collection_time, info_type, **kwargs)`,
with the per-iteration network oracle `http` and the keyword-argument names of
`kwargs`. -/
def store_info (clock : Nat → Rat) (http : Nat → String → Envelope) (fuel : Nat)
    (pair : String) (collection_time : Rat) (info_type : String)
    (kwargs : List String) : LoopResult :=
  collectLoop clock collection_time
    (fun i => callEndpoint (http i) info_type pair kwargs) fuel

/-- Python `open` mode: `store_info` uses mode `w`. -/
inductive FileMode where
  | write : FileMode
  | append : FileMode

/-- The lines a freshly opened file starts from: mode `w` truncates, mode `a`
keeps the prior contents. -/
def openLines : FileMode → List PyVal → List PyVal
  | FileMode.write, _ => []
  | FileMode.append, prior => prior

/-- The final contents of the output file of a `store_info` run, given the
lines the file held before the run: source line 103 opens it with mode `w`. -/
def store_info_file (prior : List PyVal) (clock : Nat → Rat)
    (http : Nat → String → Envelope) (fuel : Nat) (pair : String)
    (collection_time : Rat) (info_type : String) (kwargs : List String) :
    LoopResult :=
  let r := store_info clock http fuel pair collection_time info_type kwargs
  ⟨openLines FileMode.write prior ++ r.lines, r.err, r.complete⟩

/-- True iff the first character of `s` is a slash (Python
`s.startswith(sep)` for the posix separator). -/
def startsWithSlash (s : String) : Bool :=
  s.data.head? == Option.some '/'

/-- True iff the last character of `s` is a slash (Python `s.endswith(sep)`
for the posix separator). -/
def endsWithSlash (s : String) : Bool :=
  s.data.getLast? == Option.some '/'

/-- Python `posixpath.join` for two components: an absolute second component
replaces the first; otherwise a separator is inserted unless the first is
empty or already ends with one. -/
def pyJoin (x y : String) : String :=
  if startsWithSlash y then y
  else if x.data.isEmpty || endsWithSlash x then x ++ y
  else x ++ ("/") ++ y

/-- The output-file path of a `store_info` run (source line 103):
`join(save_dir, info_type) + '.txt'`. -/
def store_info_path (save_dir info_type : String) : String :=
  pyJoin save_dir info_type ++ (".txt")

/-- The directory derived in `main` (source line 168):
`join(BASE_SAVE_DIR, pair, 'kraken')`. -/
def mainSaveDir (pair : String) : String :=
  pyJoin (pyJoin BASE_SAVE_DIR pair) ("kraken")

/-- The parsed CLI flags consumed by `main`. -/
structure Args where
  time : Int
  pair : String
  order_book : Int
  depth : Int
  candles : Int
  granularity : Int
  spreads : Int
  trades : Int
  ticker : Int

/-- One thread started by `main`: the positional arguments of its
`store_info` target plus the names of the extra keyword arguments. -/
structure ThreadSpec where
  save_dir : String
  pair : String
  collection_time : Int
  info_type : String
  kwarg_names : List String

/-- The threads `main` builds, in source order (ticker, order book, spreads,
trades, candles), each gated on its integer flag being truthy (non-zero). -/
def mainThreads (a : Args) : List ThreadSpec :=
  (if a.ticker ≠ 0 then
    [⟨mainSaveDir a.pair, a.pair, a.time, ("ticker"), []⟩] else []) ++
  (if a.order_book ≠ 0 then
    [⟨mainSaveDir a.pair, a.pair, a.time, ("order_book"), [("depth")]⟩] else []) ++
  (if a.spreads ≠ 0 then
    [⟨mainSaveDir a.pair, a.pair, a.time, ("spread"), []⟩] else []) ++
  (if a.trades ≠ 0 then
    [⟨mainSaveDir a.pair, a.pair, a.time, ("trades"), []⟩] else []) ++
  (if a.candles ≠ 0 then
    [⟨mainSaveDir a.pair, a.pair, a.time, ("candles"), [("granularity")]⟩] else [])

/-- An externally visible action of `main`. -/
inductive MainAction where
  | makedirs : String → Bool → MainAction
  | startThread : ThreadSpec → MainAction
  | joinThread : ThreadSpec → MainAction

/-- The action trace of `main` (source lines 168-204): create the save
directory with `exist_ok=True`, then start every selected thread; no thread is
ever joined and nothing follows the starts. -/
def mainActions (a : Args) : List MainAction :=
  MainAction.makedirs (mainSaveDir a.pair) true
    :: (mainThreads a).map MainAction.startThread

/-- Identity clock for concrete runs: reading number `n` is time `n`. -/
def idClock : Nat → Rat := fun n => (n : Rat)

/-- Constant network oracle answering every request with `envOk` (defined
below by fields; used in concrete runs). -/
def httpOk : Nat → String → Envelope := fun _ _ =>
  { ret_code := 0, ret_msg := ("OK"), ext_code := (""), ext_info := ("")
    result := PyVal.list [], time_now := ("1567109419.049271") }

/-- Sample successful envelope (for witnesses). -/
def envOk : Envelope :=
  { ret_code := 0, ret_msg := ("OK"), ext_code := (""), ext_info := ("")
    result := PyVal.list [], time_now := ("1567109419.049271") }

/-- Sample failing envelope (for witnesses). -/
def envErr : Envelope :=
  { ret_code := 10002, ret_msg := ("invalid symbol"), ext_code := (""), ext_info := ("")
    result := PyVal.list [], time_now := ("1567109419.049271") }

/-- Claim C2: for every parsed response envelope, `make_request` returns
exactly the envelope `result` field unchanged when `ret_code` is zero, and
exactly the `ret_msg` string when `ret_code` is non-zero. -/
theorem make_request_result_or_msg (http : String → Envelope) (url : String) :
    ((http url).ret_code = 0 → make_request http url = (http url).result) ∧
    ((http url).ret_code ≠ 0 → make_request http url = PyVal.str (http url).ret_msg) := by
  constructor
  · intro h
    simp [make_request, h]
  · intro h
    simp [make_request, h]

theorem make_request_result_or_msg_witness :
    make_request (fun _ => envOk) ("u") = envOk.result ∧
    make_request (fun _ => envErr) ("u") = PyVal.str envErr.ret_msg := by
  constructor
  · exact (make_request_result_or_msg (fun _ => envOk) ("u")).1 rfl
  · exact (make_request_result_or_msg (fun _ => envErr) ("u")).2 (by decide)

/-- Claim C5: each endpoint URL builder produces exactly the documented query
parameters appended to the fixed API base URL; in particular
`get_order_book("BTCUSD")` yields path `orderBook/L2` with query
`symbol=BTCUSD`, and `get_trades` yields `trading-records` with
`symbol={pair}&limit={limit}`. -/
theorem endpoint_url_query_params :
    (∀ pair : String, get_order_book_url pair =
      API_LINK ++ ("orderBook/L2?symbol=") ++ pair) ∧
    (∀ (pair : String) (limit : Int), get_trades_url pair limit =
      API_LINK ++ ("trading-records?symbol=") ++ pair ++ ("&limit=") ++ toString limit) ∧
    urlPath (get_order_book_url PAIR) = API_LINK ++ ("orderBook/L2") ∧
    queryParams (get_order_book_url PAIR) = [(("symbol"), ("BTCUSD"))] ∧
    urlPath (get_trades_url PAIR LIMIT) = API_LINK ++ ("trading-records") ∧
    queryParams (get_trades_url PAIR LIMIT) =
      [(("symbol"), ("BTCUSD")), (("limit"), ("500"))] ∧
    queryParams (get_candles_url PAIR INTERVAL SINCE) =
      [(("symbol"), ("BTCUSD")), (("interval"), ("1")), (("from"), ("1581231260"))] ∧
    queryParams (get_ticker_url PAIR INTERVAL SINCE) =
      [(("symbol"), ("BTCUSD")), (("interval"), ("1")), (("from"), ("1581231260")), (("limit"), ("1"))] := by
  refine ⟨fun pair => rfl, fun pair limit => rfl, ?_, ?_, ?_, ?_, ?_, ?_⟩ <;> decide

theorem collectLoopAux_lines_mem (clock : Nat → Rat) (D : Rat)
    (call : Nat → Except PyError PyVal) (start : Rat) (P : PyVal → Prop)
    (hP : ∀ (t : Rat) (i : Nat) (v : PyVal), call i = Except.ok v → P (recordVal t v)) :
    ∀ (fuel k i : Nat) (acc : List PyVal), (∀ l ∈ acc, P l) →
      ∀ l ∈ (collectLoopAux clock D call start fuel k i acc).lines, P l := by
  intro fuel
  induction fuel with
  | zero =>
    intro k i acc hacc l hl
    simp only [collectLoopAux] at hl
    exact hacc l (List.mem_reverse.mp hl)
  | succ n ih =>
    intro k i acc hacc l hl
    simp only [collectLoopAux] at hl
    by_cases hc : clock k - start < D
    · rw [if_pos hc] at hl
      cases hcall : call i with
      | error e =>
        rw [hcall] at hl
        exact hacc l (List.mem_reverse.mp hl)
      | ok v =>
        rw [hcall] at hl
        refine ih (k + 2) (i + 1) (recordVal (clock (k + 1)) v :: acc) ?_ l hl
        intro x hx
        rcases List.mem_cons.mp hx with hx | hx
        · rw [hx]; exact hP (clock (k + 1)) i v hcall
        · exact hacc x hx
    · rw [if_neg hc] at hl
      exact hacc l (List.mem_reverse.mp hl)

/-- Claim C1: for every collector-loop run with a positive duration, with the
endpoint call abstracted as the per-iteration envelope oracle (`store_info`
is `collectLoop` applied to such a call), every record written to the file is
one JSON object with exactly the keys `ts` and `response`, where `response`
is the `make_request` value of that iteration: the payload on `ret_code` 0
and the `ret_msg` error string otherwise, in the same record shape in both
cases. -/
theorem collector_loop_record_format (clock : Nat → Rat) (D : Rat)
    (http : Nat → String → Envelope) (urls : Nat → String) (fuel : Nat)
    (hD : 0 < D) :
    ∀ l ∈ (collectLoop clock D
        (fun i => Except.ok (make_request (http i) (urls i))) fuel).lines,
      ∃ (t : Rat) (i : Nat),
        l = recordVal t (make_request (http i) (urls i)) ∧
        keysOf l = [("ts"), ("response")] ∧
        (make_request (http i) (urls i) = (http i (urls i)).result ∨
         make_request (http i) (urls i) = PyVal.str (http i (urls i)).ret_msg) := by
  refine collectLoopAux_lines_mem clock D _ (clock 0) _ ?_ fuel 1 0 [] (by simp)
  intro t i v hv
  have hveq : v = make_request (http i) (urls i) := (Except.ok.injEq _ _).mp hv.symm
  refine ⟨t, i, by rw [hveq], by rw [hveq]; rfl, ?_⟩
  rcases eq_or_ne (http i (urls i)).ret_code 0 with h0 | h0
  · left; simp [make_request, h0]
  · right; simp [make_request, h0]

theorem collector_loop_record_format_witness :
    0 < (10 : Rat) ∧
    ∀ l ∈ (collectLoop idClock 10
        (fun i => Except.ok (make_request (httpOk i) ((fun _ => ("u")) i))) 2).lines,
      ∃ (t : Rat) (i : Nat),
        l = recordVal t (make_request (httpOk i) ((fun _ => ("u")) i)) ∧
        keysOf l = [("ts"), ("response")] ∧
        (make_request (httpOk i) ((fun _ => ("u")) i) = (httpOk i ((fun _ => ("u")) i)).result ∨
         make_request (httpOk i) ((fun _ => ("u")) i) = PyVal.str (httpOk i ((fun _ => ("u")) i)).ret_msg) :=
  ⟨by norm_num, collector_loop_record_format idClock 10 httpOk (fun _ => ("u")) 2 (by norm_num)⟩

/-- Claim C4: `FN_MAPPING` holds exactly `order_book`, `trades` and `ticker`;
no mapped function's signature accepts `product_id` (each takes `pair`), so
for every pair, extra keyword set and positive duration (entered before the
duration elapses), `store_info` raises `TypeError` on the first iteration
before any record is written, leaving the output file truncated and empty. -/
theorem store_info_product_id_type_error :
    FN_MAPPING.map Prod.fst = [("order_book"), ("trades"), ("ticker")] ∧
    (∀ e ∈ FN_MAPPING, ("product_id") ∉ e.2 ∧ ("pair") ∈ e.2) ∧
    ∀ info_type ∈ [("order_book"), ("trades"), ("ticker")],
      ∀ (prior : List PyVal) (clock : Nat → Rat) (http : Nat → String → Envelope)
        (fuel : Nat) (pair : String) (D : Rat) (kwargs : List String),
        0 < D → clock 1 - clock 0 < D →
        store_info_file prior clock http (fuel + 1) pair D info_type kwargs =
          ⟨[], Option.some (PyError.typeError ("product_id")), true⟩ := by
  refine ⟨by decide, ?_, ?_⟩
  · intro e he
    simp only [FN_MAPPING, List.mem_cons, List.not_mem_nil, or_false] at he
    rcases he with rfl | rfl | rfl <;> exact ⟨by decide, by decide⟩
  · intro it hit prior clock http fuel pair D kwargs hD hclk
    have hcall : callEndpoint (http 0) it pair kwargs =
        Except.error (PyError.typeError ("product_id")) := by
      simp only [List.mem_cons, List.not_mem_nil, or_false] at hit
      rcases hit with rfl | rfl | rfl <;> rfl
    simp only [store_info_file, store_info, collectLoop, collectLoopAux,
      if_pos hclk, hcall]
    rfl

theorem store_info_product_id_type_error_witness :
    (("order_book") ∈ [("order_book"), ("trades"), ("ticker")]) ∧
    0 < (5 : Rat) ∧ idClock 1 - idClock 0 < 5 ∧
    store_info_file [] idClock httpOk (3 + 1) PAIR 5 ("order_book") [("depth")] =
      ⟨[], Option.some (PyError.typeError ("product_id")), true⟩ :=
  ⟨by decide, by norm_num, by norm_num [idClock],
    store_info_product_id_type_error.2.2 ("order_book") (by decide)
      [] idClock httpOk 3 PAIR 5 [("depth")] (by norm_num) (by norm_num [idClock])⟩

/-- Claim C3 fails on the code: a concrete collector run (pair `BTCUSD`,
duration 5, data type `order_book`, ample fuel) ends with a `TypeError` on the
first iteration, so the resulting file has no lines at all and in particular
no last record whose `ts` reaches `start + D`. -/
theorem collector_run_no_last_record :
    store_info_file [recordVal 0 (PyVal.str ("old"))] idClock httpOk 10
      ("BTCUSD") 5 ("order_book") [("depth")] =
      ⟨[], Option.some (PyError.typeError ("product_id")), true⟩ := by
  have h : idClock 1 - idClock 0 < 5 := by norm_num [idClock]
  simp only [store_info_file, store_info, collectLoop, collectLoopAux, if_pos h]
  rfl

/-- Claim C9 fails on the code: a concrete collector run (pair `ETHUSD`,
duration 3, data type `ticker`) ends by an uncaught `TypeError` on the first
iteration instead of repeating call-and-write until the duration elapses; no
line is ever written. -/
theorem collector_loop_first_iteration_exception :
    store_info idClock httpOk 9 ("ETHUSD") 3 ("ticker") [] =
      ⟨[], Option.some (PyError.typeError ("product_id")), true⟩ := by
  have h : idClock 1 - idClock 0 < 3 := by norm_num [idClock]
  simp only [store_info, collectLoop, collectLoopAux, if_pos h]
  rfl

/-- Claim C6: `store_info` opens its output file in mode `w`, truncating it,
so the file's final contents are independent of whatever the file held before
the run: any two prior contents give the same result, equal to the run from an
empty file. -/
theorem store_info_truncates_prior_file :
    ∀ (p1 p2 : List PyVal) (clock : Nat → Rat) (http : Nat → String → Envelope)
      (fuel : Nat) (pair : String) (D : Rat) (info_type : String)
      (kwargs : List String),
      store_info_file p1 clock http fuel pair D info_type kwargs =
        store_info_file p2 clock http fuel pair D info_type kwargs ∧
      store_info_file p1 clock http fuel pair D info_type kwargs =
        store_info_file [] clock http fuel pair D info_type kwargs := by
  intro p1 p2 clock http fuel pair D info_type kwargs
  exact ⟨rfl, rfl⟩

/-- Claim C10: a non-zero `--spreads` or `--candles` flag makes `main` start a
`store_info` thread with info type `spread` or `candles`, but `FN_MAPPING`
contains neither key, so such a run truncates the output file and raises
`KeyError` on the first iteration, leaving the file empty. -/
theorem spreads_candles_missing_mapping :
    (∀ a : Args,
      (a.spreads ≠ 0 →
        (⟨mainSaveDir a.pair, a.pair, a.time, ("spread"), []⟩ : ThreadSpec) ∈ mainThreads a) ∧
      (a.candles ≠ 0 →
        (⟨mainSaveDir a.pair, a.pair, a.time, ("candles"), [("granularity")]⟩ : ThreadSpec) ∈ mainThreads a)) ∧
    FN_MAPPING.lookup ("spread") = Option.none ∧
    FN_MAPPING.lookup ("candles") = Option.none ∧
    ∀ info_type ∈ [("spread"), ("candles")],
      ∀ (prior : List PyVal) (clock : Nat → Rat) (http : Nat → String → Envelope)
        (fuel : Nat) (pair : String) (D : Rat) (kwargs : List String),
        0 < D → clock 1 - clock 0 < D →
        store_info_file prior clock http (fuel + 1) pair D info_type kwargs =
          ⟨[], Option.some (PyError.keyError info_type), true⟩ := by
  refine ⟨?_, rfl, rfl, ?_⟩
  · intro a
    constructor
    · intro h
      simp [mainThreads, h]
    · intro h
      simp [mainThreads, h]
  · intro it hit prior clock http fuel pair D kwargs hD hclk
    have hcall : callEndpoint (http 0) it pair kwargs =
        Except.error (PyError.keyError it) := by
      simp only [List.mem_cons, List.not_mem_nil, or_false] at hit
      rcases hit with rfl | rfl <;> rfl
    simp only [store_info_file, store_info, collectLoop, collectLoopAux,
      if_pos hclk, hcall]
    rfl

theorem spreads_candles_missing_mapping_witness :
    (("spread") ∈ [("spread"), ("candles")]) ∧
    0 < (7 : Rat) ∧ idClock 1 - idClock 0 < 7 ∧
    store_info_file [recordVal 1 PyVal.null] idClock httpOk (2 + 1)
      ("XRPUSD") 7 ("spread") [] =
      ⟨[], Option.some (PyError.keyError ("spread")), true⟩ :=
  ⟨by decide, by norm_num, by norm_num [idClock],
    spreads_candles_missing_mapping.2.2.2 ("spread") (by decide)
      [recordVal 1 PyVal.null] idClock httpOk 2 ("XRPUSD") 7 []
      (by norm_num) (by norm_num [idClock])⟩

theorem data_ne_nil_of_ne_empty (s : String) (h : s ≠ ("")) : s.data ≠ [] := by
  intro hd
  exact h (String.ext (by rw [hd]))

theorem endsWithSlash_append (x y : String) (hy : y.data ≠ []) :
    endsWithSlash (x ++ y) = endsWithSlash y := by
  unfold endsWithSlash
  rw [String.data_append, List.getLast?_append_of_ne_nil x.data hy]

theorem pyJoin_after_slash (x y : String) (hy : startsWithSlash y = false)
    (hx : endsWithSlash x = true) : pyJoin x y = x ++ y := by
  unfold pyJoin
  rw [if_neg (by simp [hy]), if_pos (by simp [hx])]

theorem pyJoin_slash_mid (x y : String) (hy : startsWithSlash y = false)
    (hx1 : x.data ≠ []) (hx2 : endsWithSlash x = false) :
    pyJoin x y = x ++ ("/") ++ y := by
  unfold pyJoin
  rw [if_neg (by simp [hy]), if_neg (by simp [List.isEmpty_iff, hx1, hx2])]

theorem mainSaveDir_eq (pair : String) (h0 : pair ≠ ("")) (h1 : startsWithSlash pair = false)
    (h2 : endsWithSlash pair = false) :
    mainSaveDir pair = BASE_SAVE_DIR ++ pair ++ ("/kraken") := by
  have hpd : pair.data ≠ [] := data_ne_nil_of_ne_empty pair h0
  have hj1 : pyJoin BASE_SAVE_DIR pair = BASE_SAVE_DIR ++ pair :=
    pyJoin_after_slash _ _ h1 (by decide)
  have hj2 : pyJoin (BASE_SAVE_DIR ++ pair) ("kraken") =
      BASE_SAVE_DIR ++ pair ++ ("/") ++ ("kraken") := by
    refine pyJoin_slash_mid _ _ (by decide) ?_ ?_
    · rw [String.data_append]
      intro hc
      exact hpd (List.append_eq_nil.mp hc).2
    · rw [endsWithSlash_append _ _ hpd]
      exact h2
  unfold mainSaveDir
  rw [hj1, hj2]
  apply String.ext
  have hsplit : ("/kraken" : String).data = ("/" : String).data ++ ("kraken" : String).data := rfl
  simp only [String.data_append, List.append_assoc, hsplit,
    List.singleton_append, List.cons_append, List.nil_append]

theorem store_info_path_eq (pair : String) (h0 : pair ≠ ("")) (h1 : startsWithSlash pair = false)
    (h2 : endsWithSlash pair = false) (it : String) (hit : startsWithSlash it = false) :
    store_info_path (mainSaveDir pair) it =
      BASE_SAVE_DIR ++ pair ++ ("/kraken/") ++ it ++ (".txt") := by
  have hm := mainSaveDir_eq pair h0 h1 h2
  have hkd : ("/kraken" : String).data ≠ [] := by decide
  have hnd : (BASE_SAVE_DIR ++ pair ++ ("/kraken")).data ≠ [] := by
    rw [String.data_append]
    intro hc
    exact hkd (List.append_eq_nil.mp hc).2
  have hns : endsWithSlash (BASE_SAVE_DIR ++ pair ++ ("/kraken")) = false := by
    rw [endsWithSlash_append _ _ hkd]
    decide
  unfold store_info_path
  rw [hm, pyJoin_slash_mid _ _ hit hnd hns]
  apply String.ext
  have hsplit : ("/kraken/" : String).data = ("/kraken" : String).data ++ ("/" : String).data := rfl
  simp only [String.data_append, List.append_assoc, hsplit,
    List.singleton_append, List.cons_append, List.nil_append]

theorem store_info_path_ne (d x y : String) (hx : startsWithSlash x = false)
    (hy : startsWithSlash y = false)
    (hne : x.data ++ (".txt" : String).data ≠ y.data ++ (".txt" : String).data) :
    store_info_path d x ≠ store_info_path d y := by
  by_cases hc : (d.data.isEmpty || endsWithSlash d) = true
  · have ex : ∀ z : String, startsWithSlash z = false → pyJoin d z = d ++ z := by
      intro z hz
      unfold pyJoin
      rw [if_neg (by simp [hz]), if_pos hc]
    unfold store_info_path
    rw [ex x hx, ex y hy]
    intro h
    apply hne
    have hd := congrArg String.data h
    simp only [String.data_append, List.append_assoc] at hd
    exact List.append_cancel_left hd
  · have ex : ∀ z : String, startsWithSlash z = false → pyJoin d z = d ++ ("/") ++ z := by
      intro z hz
      unfold pyJoin
      rw [if_neg (by simp [hz]), if_neg hc]
    unfold store_info_path
    rw [ex x hx, ex y hy]
    intro h
    apply hne
    have hd := congrArg String.data h
    simp only [String.data_append, List.append_assoc] at hd
    exact List.append_cancel_left (List.append_cancel_left hd)

theorem mem_of_mem_ite_nil {α : Type} {c : Prop} [Decidable c] {l : List α} {t : α}
    (h : t ∈ (if c then l else [])) : t ∈ l := by
  by_cases hc : c
  · rwa [if_pos hc] at h
  · rw [if_neg hc] at h
    cases h

theorem mem_mainThreads (a : Args) (t : ThreadSpec) (ht : t ∈ mainThreads a) :
    t.save_dir = mainSaveDir a.pair ∧ t.pair = a.pair ∧ t.collection_time = a.time ∧
      t.info_type ∈ [("ticker"), ("order_book"), ("spread"), ("trades"), ("candles")] := by
  unfold mainThreads at ht
  simp only [List.mem_append, or_assoc] at ht
  rcases ht with h | h | h | h | h <;>
    · have h2 := mem_of_mem_ite_nil h
      simp only [List.mem_singleton] at h2
      subst h2
      exact ⟨rfl, rfl, rfl, by simp⟩

theorem ite_nil_sublist {α : Type} (c : Prop) [Decidable c] (l : List α) :
    List.Sublist (if c then l else []) l := by
  split_ifs
  exacts [List.Sublist.refl l, List.nil_sublist l]

/-- Claim C7: for every pair (non-empty, no leading or trailing separator) and
every selectable data type, the output-file path is exactly
`{BASE_SAVE_DIR}{pair}/kraken/{data_type}.txt` — the exchange suffix is the
literal `kraken` although the module queries Bybit — and the driver's first
action creates the derived directory with `exist_ok=True`. -/
theorem output_path_kraken_suffix (a : Args) (h0 : a.pair ≠ (""))
    (h1 : startsWithSlash a.pair = false) (h2 : endsWithSlash a.pair = false) :
    mainSaveDir a.pair = BASE_SAVE_DIR ++ a.pair ++ ("/kraken") ∧
    MainAction.makedirs (mainSaveDir a.pair) true ∈ mainActions a ∧
    ∀ it ∈ [("ticker"), ("order_book"), ("spread"), ("trades"), ("candles")],
      store_info_path (mainSaveDir a.pair) it =
        BASE_SAVE_DIR ++ a.pair ++ ("/kraken/") ++ it ++ (".txt") := by
  refine ⟨mainSaveDir_eq a.pair h0 h1 h2, List.mem_cons_self _ _, ?_⟩
  intro it hit
  refine store_info_path_eq a.pair h0 h1 h2 it ?_
  simp only [List.mem_cons, List.not_mem_nil, or_false] at hit
  rcases hit with rfl | rfl | rfl | rfl | rfl <;> decide

theorem output_path_kraken_suffix_witness :
    (("BTCUSD") : String) ≠ ("") ∧ startsWithSlash ("BTCUSD") = false ∧
    endsWithSlash ("BTCUSD") = false ∧
    (mainSaveDir ("BTCUSD") = BASE_SAVE_DIR ++ ("BTCUSD") ++ ("/kraken") ∧
     MainAction.makedirs (mainSaveDir ("BTCUSD")) true ∈
       mainActions (⟨5, ("BTCUSD"), 1, 3, 0, 0, 0, 1, 1⟩ : Args) ∧
     ∀ it ∈ [("ticker"), ("order_book"), ("spread"), ("trades"), ("candles")],
       store_info_path (mainSaveDir ("BTCUSD")) it =
         BASE_SAVE_DIR ++ ("BTCUSD") ++ ("/kraken/") ++ it ++ (".txt")) :=
  ⟨by decide, by decide, by decide,
    output_path_kraken_suffix (⟨5, ("BTCUSD"), 1, 3, 0, 0, 0, 1, 1⟩ : Args)
      (by decide) (by decide) (by decide)⟩

/-- Claim C8: for every flag configuration, `main` starts exactly one
collector thread per selected data type (count one when the flag is non-zero,
zero otherwise), every started thread targets the derived directory with the
file named after its own data type, any two threads of distinct data types
write distinct files, and `main`'s action trace contains no join: it returns
right after the starts. -/
theorem main_one_thread_per_type (a : Args) :
    ((mainThreads a).countP (fun t => t.info_type == ("ticker")) =
      if a.ticker ≠ 0 then 1 else 0) ∧
    ((mainThreads a).countP (fun t => t.info_type == ("order_book")) =
      if a.order_book ≠ 0 then 1 else 0) ∧
    ((mainThreads a).countP (fun t => t.info_type == ("spread")) =
      if a.spreads ≠ 0 then 1 else 0) ∧
    ((mainThreads a).countP (fun t => t.info_type == ("trades")) =
      if a.trades ≠ 0 then 1 else 0) ∧
    ((mainThreads a).countP (fun t => t.info_type == ("candles")) =
      if a.candles ≠ 0 then 1 else 0) ∧
    (∀ t ∈ mainThreads a, t.save_dir = mainSaveDir a.pair ∧ t.pair = a.pair ∧
      t.collection_time = a.time ∧
      t.info_type ∈ [("ticker"), ("order_book"), ("spread"), ("trades"), ("candles")]) ∧
    (∀ t1 ∈ mainThreads a, ∀ t2 ∈ mainThreads a, t1.info_type ≠ t2.info_type →
      store_info_path t1.save_dir t1.info_type ≠ store_info_path t2.save_dir t2.info_type) ∧
    (∀ act ∈ mainActions a, ∀ t : ThreadSpec, act ≠ MainAction.joinThread t) := by
  refine ⟨?_, ?_, ?_, ?_, ?_, mem_mainThreads a, ?_, ?_⟩
  · simp only [mainThreads]
    split_ifs <;> rfl
  · simp only [mainThreads]
    split_ifs <;> rfl
  · simp only [mainThreads]
    split_ifs <;> rfl
  · simp only [mainThreads]
    split_ifs <;> rfl
  · simp only [mainThreads]
    split_ifs <;> rfl
  · intro t1 h1 t2 h2 hneq
    obtain ⟨hd1, -, -, hi1⟩ := mem_mainThreads a t1 h1
    obtain ⟨hd2, -, -, hi2⟩ := mem_mainThreads a t2 h2
    rw [hd1, hd2]
    simp only [List.mem_cons, List.not_mem_nil, or_false] at hi1 hi2
    rcases hi1 with h | h | h | h | h <;> rcases hi2 with g | g | g | g | g <;>
      rw [h, g] <;>
      first
      | exact absurd (h.trans g.symm) hneq
      | exact store_info_path_ne _ _ _ (by decide) (by decide) (by decide)
  · intro act hact t
    simp only [mainActions, List.mem_cons, List.mem_map] at hact
    rcases hact with rfl | ⟨u, hu, rfl⟩
    · exact fun hco => MainAction.noConfusion hco
    · exact fun hco => MainAction.noConfusion hco

theorem main_one_thread_per_type_witness :
    ((mainThreads (⟨5, ("ETHUSD"), 1, 3, 1, 60, 1, 1, 1⟩ : Args)).countP
        (fun t => t.info_type == ("ticker")) = 1) ∧
    (∀ t1 ∈ mainThreads (⟨5, ("ETHUSD"), 1, 3, 1, 60, 1, 1, 1⟩ : Args),
      ∀ t2 ∈ mainThreads (⟨5, ("ETHUSD"), 1, 3, 1, 60, 1, 1, 1⟩ : Args),
      t1.info_type ≠ t2.info_type →
      store_info_path t1.save_dir t1.info_type ≠ store_info_path t2.save_dir t2.info_type) := by
  have h := main_one_thread_per_type (⟨5, ("ETHUSD"), 1, 3, 1, 60, 1, 1, 1⟩ : Args)
  exact ⟨h.1, h.2.2.2.2.2.2.1⟩
